import Mathlib

/-!
Verification of the IframeViewer capture-crop pipeline and zoom engine.

The development shallowly embeds the core functions of the repository's
single script (`background.js`, which bundles the service worker and the
popup logic):

* `cropImage` (source lines 758-789): canvas crop of the full-viewport
  screenshot to the iframe's CSS-pixel rectangle, with device-pixel-ratio
  conversion and bounds clamping;
* `scrollAndGetRect` geometry (source lines 1165-1196): visible
  intersection of the target's bounding box with the viewport;
* `handleCapture` (source lines 681-751): the sequencing of resolve,
  capture and crop with its failure short-circuits, and an interleaving
  model of overlapping invocations over the shared published state;
* the zoom engine (`zoomFit`, `zoomBy`, `zoomAtPoint`, drag pan; source
  lines 1072-1159).

Numbers that are JavaScript floats are modelled as rationals (exact
arithmetic; the spec's tolerance clauses are absorbed by exactness), and
integer pixel counts as `Int`/`Nat`.
-/

/-- JavaScript `Math.round`: round half toward positive infinity,
so `Math.round (-2.5) = -2` and `Math.round 2.5 = 3`. -/
def jsRound (q : ℚ) : ℤ := ⌊q + 1 / 2⌋

/-- A decoded raster image: integer dimensions and a total pixel lookup.
Reads outside the bounds are irrelevant for a well-formed image; the
canvas model treats them as transparent (value 0). -/
structure RasterImage where
  width : ℤ
  height : ℤ
  pix : ℤ → ℤ → ℕ

/-- The rect object `cropImage` receives (CSS pixels), as produced by
`scrollAndGetRect`: fields `x`, `y`, `width`, `height` and the device
pixel ratio (source field `devicePixelRatio`, shortened to `dpr` here). -/
structure CssRect where
  x : ℚ
  y : ℚ
  width : ℚ
  height : ℚ
  dpr : ℚ

/-- Failure of the crop step: the clamped source rectangle is empty
(source line 774, message 裁剪区域超出截图范围). -/
inductive CropError where
  | outOfBounds
deriving DecidableEq

/-- Embedding of `cropImage` (source lines 758-789).  `sx, sy, sw, sh`
are the CSS rect scaled by `dpr` and rounded (lines 764-767, with the
`|| 1` fallback of line 762 when `dpr` is zero); the source width/height
are clamped to what remains of the image (lines 770-771); an empty
clamped rect rejects (lines 773-776); otherwise the canvas of size
`clampedSw × clampedSh` receives the pixels of the source rectangle at
offset `(sx, sy)`, out-of-source samples being transparent (canvas
`drawImage` semantics for lines 778-784). -/
def cropImage (img : RasterImage) (rect : CssRect) : Except CropError RasterImage :=
  let dpr := if rect.dpr = 0 then 1 else rect.dpr
  let sx := jsRound (rect.x * dpr)
  let sy := jsRound (rect.y * dpr)
  let sw := jsRound (rect.width * dpr)
  let sh := jsRound (rect.height * dpr)
  let clampedSw := min sw (img.width - sx)
  let clampedSh := min sh (img.height - sy)
  if clampedSw ≤ 0 ∨ clampedSh ≤ 0 then
    Except.error CropError.outOfBounds
  else
    Except.ok
      { width := clampedSw
        height := clampedSh
        pix := fun i j =>
          if 0 ≤ i ∧ i < clampedSw ∧ 0 ≤ j ∧ j < clampedSh ∧
             0 ≤ sx + i ∧ sx + i < img.width ∧ 0 ≤ sy + j ∧ sy + j < img.height
          then img.pix (sx + i) (sy + j) else 0 }

/-- A DOM bounding box as returned by `getBoundingClientRect` (CSS px). -/
structure DomRect where
  left : ℚ
  top : ℚ
  right : ℚ
  bottom : ℚ

/-- The object `scrollAndGetRect` resolves with (source lines 1185-1192). -/
structure ResolvedRect where
  x : ℚ
  y : ℚ
  width : ℤ
  height : ℤ
  fullWidth : ℤ
  fullHeight : ℤ
  dpr : ℚ

/-- The geometry computed by `scrollAndGetRect` after the scroll settles
(source lines 1177-1192): intersection of the bounding box with the
viewport `[0, vw] × [0, vh]`, rounded width/height, plus the unclipped
size and the device pixel ratio. -/
def visibleRect (r : DomRect) (vw vh : ℚ) (dpr : ℚ) : ResolvedRect :=
  let x := max r.left 0
  let y := max r.top 0
  let rr := min r.right vw
  let bb := min r.bottom vh
  { x := x
    y := y
    width := jsRound (rr - x)
    height := jsRound (bb - y)
    fullWidth := jsRound (r.right - r.left)
    fullHeight := jsRound (r.bottom - r.top)
    dpr := dpr }

/-- Failure taxonomy of one `handleCapture` run, one constructor per
`throw` site of source lines 703-714 and the crop rejection of line 774:
target not found (line 703), zero visible size (line 704), capture layer
failure (lines 713-714), crop region outside the screenshot (line 774
surfaced at line 717). -/
inductive CapErr where
  | notFound
  | zeroSize
  | captureError
  | outOfBounds
deriving DecidableEq

/-- Outcome of one `handleCapture` run: the cropped image or an error. -/
inductive CaptureOutcome where
  | ok (img : RasterImage)
  | err (e : CapErr)

/-- The collaborator calls `handleCapture` can issue, in order: the
injected `scrollAndGetRect` (line 696), the CAPTURE_TAB message to the
service worker (line 707), the canvas crop (line 717). -/
inductive PipeStep where
  | resolve
  | capture
  | crop
deriving DecidableEq

/-- Conversion of the resolved rect to the rect object handed to
`cropImage` at source line 717 (same object; `width`/`height` were
already rounded to integers by `scrollAndGetRect`). -/
def ResolvedRect.toCss (r : ResolvedRect) : CssRect :=
  { x := r.x, y := r.y, width := (r.width : ℚ), height := (r.height : ℚ), dpr := r.dpr }

/-- Embedding of one `handleCapture` run (source lines 693-737), as a
function of the two collaborator results: the resolved rect (`null`
modelled as `none`) and the screenshot message reply.  Returns the
outcome together with the list of collaborator steps that actually ran.
Line 703 throws when the rect is missing; line 704 throws when the
resolved width or height is ≤ 0, before the CAPTURE_TAB message of line
707; lines 713-714 propagate a capture failure before the crop of line
717. -/
def handleCapture (resolveRes : Option ResolvedRect)
    (captureRes : Except CapErr RasterImage) :
    CaptureOutcome × List PipeStep :=
  match resolveRes with
  | none => (CaptureOutcome.err CapErr.notFound, [PipeStep.resolve])
  | some rect =>
    if rect.width ≤ 0 ∨ rect.height ≤ 0 then
      (CaptureOutcome.err CapErr.zeroSize, [PipeStep.resolve])
    else
      match captureRes with
      | Except.error _ =>
          (CaptureOutcome.err CapErr.captureError, [PipeStep.resolve, PipeStep.capture])
      | Except.ok img =>
          match cropImage img rect.toCss with
          | Except.error _ =>
              (CaptureOutcome.err CapErr.outOfBounds,
               [PipeStep.resolve, PipeStep.capture, PipeStep.crop])
          | Except.ok out =>
              (CaptureOutcome.ok out,
               [PipeStep.resolve, PipeStep.capture, PipeStep.crop])

/-! Interleaving model of overlapping `handleCapture` invocations.

`handleCapture` is an async function over shared module state; its
success path suspends at four awaits (the script injection of line 696,
the CAPTURE_TAB message of line 707, the crop promise of line 717, the
image-load promise of lines 723-726) and only after the last of them
publishes its result to the shared state (`lastSnapshotUrl` and the
displayed image, lines 720-737).  We model each invocation as four
atomic segments: segments 0-2 are the work up to the successive awaits
and touch no published state; segment 3 (program counter 3) is the final
resume, which publishes unconditionally — the source compares no request
token before writing.  A schedule is the list of invocation ids in the
order their segments run; within one invocation the segments run in
order, which the scheduler respects by construction. -/

/-- Shared state of the interleaving model: per-invocation program
counter (how many of its four segments have run) and which invocation's
result is currently published (`none` before any completes). -/
structure ConcState where
  pcs : ℕ → ℕ
  published : Option ℕ

/-- Run one segment of invocation `i`: its next segment in order, which
is the unconditional publish (lines 720-737) exactly when three
segments have already run. -/
def stepInv (s : ConcState) (i : ℕ) : ConcState :=
  { pcs := fun j => if j = i then s.pcs i + 1 else s.pcs j
    published := if s.pcs i = 3 then some i else s.published }

/-- Run a whole schedule from the initial state (no segment has run,
nothing published). -/
def runSched (sch : List ℕ) : ConcState :=
  sch.foldl stepInv { pcs := fun _ => 0, published := none }

/-! Zoom engine (source lines 1072-1159).  The state is the module-level
`zoom` object of line 1075. -/

/-- The `zoom` state object (source line 1075): scale, translation, and
the derived fit scale. -/
structure Zoom where
  scale : ℚ
  tx : ℚ
  ty : ℚ
  fitScale : ℚ
deriving DecidableEq

/-- Embedding of `zoomFit` (source lines 1085-1100): bail out when the
image has no natural width (line 1088, guard `!img.naturalWidth`);
otherwise take the smaller of the two axis ratios capped at 1 (no
upscaling, lines 1090-1094) and center the scaled image (lines
1097-1098).  `vw, vh` are the viewport's client size, `iw, ih` the
image's natural size. -/
def zoomFit (vw vh : ℚ) (iw ih : ℕ) (z : Zoom) : Zoom :=
  if iw = 0 then z
  else
    let s := min (vw / (iw : ℚ)) (min (vh / (ih : ℚ)) 1)
    { scale := s
      tx := (vw - (iw : ℚ) * s) / 2
      ty := (vh - (ih : ℚ) * s) / 2
      fitScale := s }

/-- Embedding of `zoomAtPoint` (source lines 1111-1124): clamp the
requested scale to `[0.05, 10]` (line 1113), compute the image-space
point under the anchor with the old scale (lines 1117-1118), and move
the translation so that point stays under the anchor at the new scale
(lines 1120-1122). -/
def zoomAtPoint (newScale vpX vpY : ℚ) (z : Zoom) : Zoom :=
  let ns := max (1 / 20) (min 10 newScale)
  let imgX := (vpX - z.tx) / z.scale
  let imgY := (vpY - z.ty) / z.scale
  { scale := ns
    tx := vpX - imgX * ns
    ty := vpY - imgY * ns
    fitScale := z.fitScale }

/-- Embedding of `zoomBy` (source lines 1103-1108): zoom at the viewport
center by the given factor. -/
def zoomBy (factor vw vh : ℚ) (z : Zoom) : Zoom :=
  zoomAtPoint (z.scale * factor) (vw / 2) (vh / 2) z

/-- Drag record captured on `mousedown` (source line 1142): the cursor
position at drag start and the translation at drag start. -/
structure DragState where
  startX : ℚ
  startY : ℚ
  tx0 : ℚ
  ty0 : ℚ

/-- The `mousedown` handler of the pan interaction (source lines
1140-1145): record the cursor position and the current translation. -/
def panStart (cx cy : ℚ) (z : Zoom) : DragState :=
  { startX := cx, startY := cy, tx0 := z.tx, ty0 := z.ty }

/-- The `mousemove` handler of the pan interaction (source lines
1146-1151): set the translation to the drag-start translation plus the
cursor delta; nothing else changes. -/
def panMove (d : DragState) (cx cy : ℚ) (z : Zoom) : Zoom :=
  { z with tx := d.tx0 + (cx - d.startX), ty := d.ty0 + (cy - d.startY) }

/-! Theorems -/

/-- Rounding a nonnegative quantity JS-style stays nonnegative. -/
theorem jsRound_nonneg (q : ℚ) (h : 0 ≤ q) : 0 ≤ jsRound q := by
  have h2 : (0 : ℚ) ≤ q + 1 / 2 := by linarith
  exact Int.floor_nonneg.mpr h2

/-- C1: a CSS rect whose dpr-scaled, rounded form lies fully inside the
image (nonnegative offset, positive size, extent within bounds) crops
successfully to an image of exactly the rounded size whose pixels are
the source pixels at the rounded raster offset. -/
theorem cropImage_inside (img : RasterImage) (rect : CssRect)
    (hdpr : rect.dpr ≠ 0)
    (hsx : 0 ≤ jsRound (rect.x * rect.dpr))
    (hsy : 0 ≤ jsRound (rect.y * rect.dpr))
    (hsw : 0 < jsRound (rect.width * rect.dpr))
    (hsh : 0 < jsRound (rect.height * rect.dpr))
    (hW : jsRound (rect.x * rect.dpr) + jsRound (rect.width * rect.dpr) ≤ img.width)
    (hH : jsRound (rect.y * rect.dpr) + jsRound (rect.height * rect.dpr) ≤ img.height) :
    ∃ out, cropImage img rect = Except.ok out ∧
      out.width = jsRound (rect.width * rect.dpr) ∧
      out.height = jsRound (rect.height * rect.dpr) ∧
      ∀ i j, 0 ≤ i → i < out.width → 0 ≤ j → j < out.height →
        out.pix i j = img.pix (jsRound (rect.x * rect.dpr) + i) (jsRound (rect.y * rect.dpr) + j) := by
  simp only [cropImage, if_neg hdpr]
  have hw : min (jsRound (rect.width * rect.dpr)) (img.width - jsRound (rect.x * rect.dpr)) =
      jsRound (rect.width * rect.dpr) := min_eq_left (by omega)
  have hh : min (jsRound (rect.height * rect.dpr)) (img.height - jsRound (rect.y * rect.dpr)) =
      jsRound (rect.height * rect.dpr) := min_eq_left (by omega)
  rw [hw, hh, if_neg (by omega)]
  refine ⟨_, rfl, rfl, rfl, ?_⟩
  intro i j hi1 hi2 hj1 hj2
  simp only at hi2 hj2 ⊢
  rw [if_pos ⟨hi1, hi2, hj1, hj2, by omega, by omega, by omega, by omega⟩]

/-- C2: the crop clamps the source width and height to what remains of
the image past the rounded offset; it fails with the out-of-bounds
error exactly when a clamped extent is ≤ 0, and otherwise succeeds with
dimensions `min(requested, available)` in each axis, which are strictly
positive (so never negative). -/
theorem cropImage_clamp (img : RasterImage) (rect : CssRect) (hdpr : rect.dpr ≠ 0) :
    (cropImage img rect = Except.error CropError.outOfBounds ↔
      min (jsRound (rect.width * rect.dpr)) (img.width - jsRound (rect.x * rect.dpr)) ≤ 0 ∨
      min (jsRound (rect.height * rect.dpr)) (img.height - jsRound (rect.y * rect.dpr)) ≤ 0) ∧
    (∀ out, cropImage img rect = Except.ok out →
      out.width = min (jsRound (rect.width * rect.dpr)) (img.width - jsRound (rect.x * rect.dpr)) ∧
      out.height = min (jsRound (rect.height * rect.dpr)) (img.height - jsRound (rect.y * rect.dpr)) ∧
      0 < out.width ∧ 0 < out.height) := by
  simp only [cropImage, if_neg hdpr]
  by_cases hc :
      min (jsRound (rect.width * rect.dpr)) (img.width - jsRound (rect.x * rect.dpr)) ≤ 0 ∨
      min (jsRound (rect.height * rect.dpr)) (img.height - jsRound (rect.y * rect.dpr)) ≤ 0
  · rw [if_pos hc]
    refine ⟨iff_of_true rfl hc, ?_⟩
    intro out hout
    exact absurd hout (by simp)
  · rw [if_neg hc]
    refine ⟨iff_of_false (by simp) hc, ?_⟩
    intro out hout
    have hout2 := Except.ok.inj hout
    push_neg at hc
    have hw2 : out.width =
        min (jsRound (rect.width * rect.dpr)) (img.width - jsRound (rect.x * rect.dpr)) := by
      rw [← hout2]
    have hh2 : out.height =
        min (jsRound (rect.height * rect.dpr)) (img.height - jsRound (rect.y * rect.dpr)) := by
      rw [← hout2]
    exact ⟨hw2, hh2, by rw [hw2]; omega, by rw [hh2]; omega⟩

/-- A 1600 × 1200 captured screenshot with a non-constant pixel pattern,
for the end-to-end crop scenario. -/
def imgT : RasterImage := ⟨1600, 1200, fun i j => (i + 2 * j).natAbs⟩

/-- The scenario rect `{x:10, y:20, width:200, height:100}` at dpr 2. -/
def rectT : CssRect := ⟨10, 20, 200, 100, 2⟩

/-- C1 witness: the scenario rect on the 1600 × 1200 screenshot crops to
a 400 × 200 image taken from raster offset (20, 40). -/
theorem cropImage_inside_witness :
    ∃ out, cropImage imgT rectT = Except.ok out ∧
      out.width = 400 ∧ out.height = 200 ∧ out.pix 0 0 = imgT.pix 20 40 := by
  obtain ⟨out, hok, hw, hh, hpix⟩ :=
    cropImage_inside imgT rectT (by norm_num [rectT]) (by norm_num [rectT, jsRound])
      (by norm_num [rectT, jsRound]) (by norm_num [rectT, jsRound])
      (by norm_num [rectT, jsRound]) (by norm_num [rectT, imgT, jsRound])
      (by norm_num [rectT, imgT, jsRound])
  have hw4 : out.width = 400 := by rw [hw]; norm_num [rectT, jsRound]
  have hh2 : out.height = 200 := by rw [hh]; norm_num [rectT, jsRound]
  refine ⟨out, hok, hw4, hh2, ?_⟩
  have h3 := hpix 0 0 le_rfl (by rw [hw4]; norm_num) le_rfl (by rw [hh2]; norm_num)
  rw [h3]
  norm_num [rectT, jsRound]

/-- A 100 × 100 screenshot for the clamping witness. -/
def imgS : RasterImage := ⟨100, 100, fun _ _ => 0⟩

/-- A rect whose raster extent starts past the right edge of `imgS`. -/
def rectS : CssRect := ⟨200, 0, 50, 50, 1⟩

/-- C2 witness: a rect starting past the image's right edge has clamped
width ≤ 0 and is rejected with the out-of-bounds error. -/
theorem cropImage_clamp_witness :
    cropImage imgS rectS = Except.error CropError.outOfBounds := by
  rw [(cropImage_clamp imgS rectS (by norm_num [rectS])).1]
  left
  norm_num [imgS, rectS, jsRound]

/-- A bounding box entirely above and to the left of the viewport. -/
def offscreenBox : DomRect := ⟨-100, -100, -50, -50⟩

/-- C3 counterexample: for a fully off-screen target the geometry
resolver reports a strictly negative width and height (here −50), not
zero — the reported values are not clamped to zero. -/
theorem visibleRect_offscreen_negative :
    (visibleRect offscreenBox 800 600 1).width = -50 ∧
    (visibleRect offscreenBox 800 600 1).height = -50 ∧
    (visibleRect offscreenBox 800 600 1).width < 0 ∧
    (visibleRect offscreenBox 800 600 1).height < 0 := by
  norm_num [visibleRect, offscreenBox, jsRound]

/-- C3 amended: the resolver reports `x = max(left, 0)`,
`y = max(top, 0)`, and width/height the rounded difference between the
clamped right/bottom and `x`/`y`; these are nonnegative whenever the
target's box meets the viewport range in the corresponding axis, but a
fully off-screen target yields a negative value, not zero. -/
theorem visibleRect_spec (r : DomRect) (vw vh dpr : ℚ) :
    (visibleRect r vw vh dpr).x = max r.left 0 ∧
    (visibleRect r vw vh dpr).y = max r.top 0 ∧
    (visibleRect r vw vh dpr).width = jsRound (min r.right vw - max r.left 0) ∧
    (visibleRect r vw vh dpr).height = jsRound (min r.bottom vh - max r.top 0) ∧
    (r.left ≤ r.right → 0 ≤ r.right → r.left ≤ vw → 0 ≤ vw →
      0 ≤ (visibleRect r vw vh dpr).width) ∧
    (r.top ≤ r.bottom → 0 ≤ r.bottom → r.top ≤ vh → 0 ≤ vh →
      0 ≤ (visibleRect r vw vh dpr).height) := by
  refine ⟨rfl, rfl, rfl, rfl, ?_, ?_⟩
  · intro h1 h2 h3 h4
    have hle : max r.left 0 ≤ min r.right vw := max_le (le_min h1 h3) (le_min h2 h4)
    exact jsRound_nonneg _ (by linarith)
  · intro h1 h2 h3 h4
    have hle : max r.top 0 ≤ min r.bottom vh := max_le (le_min h1 h3) (le_min h2 h4)
    exact jsRound_nonneg _ (by linarith)

/-- C3 witness: a box partially clipped by the top-left viewport corner
still reports nonnegative extents. -/
theorem visibleRect_spec_witness :
    (visibleRect ⟨10, 20, 210, 120⟩ 800 600 1).x = 10 ∧
    0 ≤ (visibleRect ⟨10, 20, 210, 120⟩ 800 600 1).width ∧
    0 ≤ (visibleRect ⟨10, 20, 210, 120⟩ 800 600 1).height := by
  have h := visibleRect_spec ⟨10, 20, 210, 120⟩ 800 600 1
  refine ⟨?_, h.2.2.2.2.1 (by norm_num) (by norm_num) (by norm_num) (by norm_num),
    h.2.2.2.2.2 (by norm_num) (by norm_num) (by norm_num) (by norm_num)⟩
  rw [h.1]
  norm_num

/-- C4 counterexample: in the schedule where invocation 0 (capture A)
starts, invocation 1 (capture B) then starts and runs to completion,
and A's remaining async work resumes afterwards, the published state
ends up holding A's result, not B's.  The third and fourth conjuncts
certify that after five steps B has fully completed while A is still
in-flight, so B both started after A and completed before A. -/
theorem handleCapture_overlap_stale_published :
    (runSched [0, 1, 1, 1, 1, 0, 0, 0]).published = some 0 ∧
    (runSched [0, 1, 1, 1, 1, 0, 0, 0]).published ≠ some 1 ∧
    (runSched (List.take 5 [0, 1, 1, 1, 1, 0, 0, 0])).pcs 1 = 4 ∧
    (runSched (List.take 5 [0, 1, 1, 1, 1, 0, 0, 0])).pcs 0 = 1 ∧
    (runSched [0, 1, 1, 1, 1, 0, 0, 0]).pcs 0 = 4 ∧
    (runSched [0, 1, 1, 1, 1, 0, 0, 0]).pcs 1 = 4 := by
  decide

/-- C4 amended: `handleCapture` has no supersession guard, so the
published state reflects whichever invocation's final publish segment
runs last — last-completion-wins, not last-started-wins; a superseded
in-flight capture that completes later overwrites the newer result. -/
theorem runSched_last_publish_wins (sch : List ℕ) (i : ℕ)
    (h : (runSched sch).pcs i = 3) :
    (runSched (sch ++ [i])).published = some i := by
  have happ : runSched (sch ++ [i]) = stepInv (runSched sch) i := by
    simp [runSched, List.foldl_append]
  rw [happ]
  simp [stepInv, h]

/-- C4 amended witness: the superseded invocation 0 publishes last in
the concrete overlap schedule and its result is what remains published. -/
theorem runSched_last_publish_wins_witness :
    (runSched ([0, 1, 1, 1, 1, 0, 0] ++ [0])).published = some 0 :=
  runSched_last_publish_wins [0, 1, 1, 1, 1, 0, 0] 0 (by decide)

/-- C5: a resolved rect with nonpositive width or height makes the
pipeline fail with the zero-size error right after the resolve step;
neither the viewport capture nor the crop ever runs. -/
theorem handleCapture_zeroSize (rect : ResolvedRect) (cap : Except CapErr RasterImage)
    (h : rect.width ≤ 0 ∨ rect.height ≤ 0) :
    (handleCapture (some rect) cap).1 = CaptureOutcome.err CapErr.zeroSize ∧
    PipeStep.capture ∉ (handleCapture (some rect) cap).2 ∧
    PipeStep.crop ∉ (handleCapture (some rect) cap).2 := by
  have hrun : handleCapture (some rect) cap
      = (CaptureOutcome.err CapErr.zeroSize, [PipeStep.resolve]) := by
    simp only [handleCapture, if_pos h]
  rw [hrun]
  exact ⟨rfl, by decide, by decide⟩

/-- A resolved rect of zero visible size. -/
def rectZ : ResolvedRect := ⟨0, 0, 0, 0, 0, 0, 1⟩

/-- C5 witness: the zero-size rect short-circuits to the zero-size
error before the capture step, whatever the capture layer would have
answered. -/
theorem handleCapture_zeroSize_witness :
    (handleCapture (some rectZ) (Except.error CapErr.captureError)).1
      = CaptureOutcome.err CapErr.zeroSize ∧
    PipeStep.capture ∉ (handleCapture (some rectZ) (Except.error CapErr.captureError)).2 :=
  ⟨(handleCapture_zeroSize rectZ _ (Or.inl (by norm_num [rectZ]))).1,
   (handleCapture_zeroSize rectZ _ (Or.inl (by norm_num [rectZ]))).2.1⟩

/-- C6: zooming at an anchor preserves the image-space point under the
anchor — the coordinate `(px - tx)/scale` before the call equals the
same expression computed with the post-call translation and scale,
whatever scale was requested. -/
theorem zoomAtPoint_anchor (s2 px py : ℚ) (z : Zoom) (h : 0 < z.scale) :
    (px - (zoomAtPoint s2 px py z).tx) / (zoomAtPoint s2 px py z).scale
      = (px - z.tx) / z.scale ∧
    (py - (zoomAtPoint s2 px py z).ty) / (zoomAtPoint s2 px py z).scale
      = (py - z.ty) / z.scale := by
  have hns : (0 : ℚ) < max (1 / 20) (min 10 s2) :=
    lt_of_lt_of_le (by norm_num) (le_max_left _ _)
  dsimp only [zoomAtPoint]
  constructor <;> · field_simp; ring

/-- A transform state with scale 1 and translation (3, 4). -/
def zA : Zoom := ⟨1, 3, 4, 1⟩

/-- C6 witness: zooming to scale 2 anchored at (5, 7) from `zA` keeps
the image point under the anchor fixed. -/
theorem zoomAtPoint_anchor_witness :
    (5 - (zoomAtPoint 2 5 7 zA).tx) / (zoomAtPoint 2 5 7 zA).scale
      = (5 - zA.tx) / zA.scale ∧
    (7 - (zoomAtPoint 2 5 7 zA).ty) / (zoomAtPoint 2 5 7 zA).scale
      = (7 - zA.ty) / zA.scale :=
  zoomAtPoint_anchor 2 5 7 zA (by norm_num [zA])

/-- C7: the stored scale after any `zoomAtPoint` call lies in
`[0.05, 10]` (written `1/20` and `10`), whatever scale was requested. -/
theorem zoomAtPoint_scale_bounds (s2 px py : ℚ) (z : Zoom) :
    1 / 20 ≤ (zoomAtPoint s2 px py z).scale ∧ (zoomAtPoint s2 px py z).scale ≤ 10 := by
  dsimp only [zoomAtPoint]
  exact ⟨le_max_left _ _, max_le (by norm_num) (min_le_left _ _)⟩

/-- C8: with a loaded image, `zoomFit` sets the fit scale to the
smaller axis ratio capped at 1 (never upscaling), adopts it as the
scale, and centers the scaled image in the viewport. -/
theorem zoomFit_spec (vw vh : ℚ) (iw ih : ℕ) (z : Zoom)
    (hiw : 0 < iw) (hih : 0 < ih) :
    (zoomFit vw vh iw ih z).fitScale = min (vw / (iw : ℚ)) (min (vh / (ih : ℚ)) 1) ∧
    (zoomFit vw vh iw ih z).scale = (zoomFit vw vh iw ih z).fitScale ∧
    (zoomFit vw vh iw ih z).tx = (vw - (iw : ℚ) * (zoomFit vw vh iw ih z).scale) / 2 ∧
    (zoomFit vw vh iw ih z).ty = (vh - (ih : ℚ) * (zoomFit vw vh iw ih z).scale) / 2 := by
  have hne : iw ≠ 0 := hiw.ne'
  refine ⟨?_, ?_, ?_, ?_⟩ <;> simp [zoomFit, hne]

/-- The fit-scenario start state: scale 1, no translation. -/
def z0 : Zoom := ⟨1, 0, 0, 1⟩

/-- C8 witness: an 800 × 600 viewport and a 400 × 300 image fit at
scale 1 (no upscaling) centered at translation (200, 150). -/
theorem zoomFit_spec_witness :
    (zoomFit 800 600 400 300 z0).scale = 1 ∧
    (zoomFit 800 600 400 300 z0).tx = 200 ∧
    (zoomFit 800 600 400 300 z0).ty = 150 := by
  obtain ⟨h1, h2, h3, h4⟩ := zoomFit_spec 800 600 400 300 z0 (by norm_num) (by norm_num)
  have hs : (zoomFit 800 600 400 300 z0).scale = 1 := by
    rw [h2, h1]
    norm_num
  exact ⟨hs, by rw [h3, hs]; norm_num, by rw [h4, hs]; norm_num⟩

/-- C9: when the active image has no positive natural width (not yet
decoded, `naturalWidth` 0), `zoomFit` returns with the transform state
untouched, so no division by the image size is ever performed. -/
theorem zoomFit_unloaded_image (vw vh : ℚ) (iw ih : ℕ) (z : Zoom)
    (h : ¬ 0 < iw) :
    zoomFit vw vh iw ih z = z := by
  have h0 : iw = 0 := by omega
  simp [zoomFit, h0]

/-- C9 witness: fitting with a zero-width image leaves `z0` unchanged. -/
theorem zoomFit_unloaded_image_witness : zoomFit 800 600 0 300 z0 = z0 :=
  zoomFit_unloaded_image 800 600 0 300 z0 (by norm_num)

/-- C10: a pointer-move step of the drag pan sets the translation to
the drag-start translation plus the cursor delta — with no clamping —
and leaves the scale and the fit scale unchanged. -/
theorem panMove_spec (sx sy cx cy : ℚ) (zs z : Zoom) :
    (panMove (panStart sx sy zs) cx cy z).scale = z.scale ∧
    (panMove (panStart sx sy zs) cx cy z).fitScale = z.fitScale ∧
    (panMove (panStart sx sy zs) cx cy z).tx = zs.tx + (cx - sx) ∧
    (panMove (panStart sx sy zs) cx cy z).ty = zs.ty + (cy - sy) :=
  ⟨rfl, rfl, rfl, rfl⟩
